import Mathlib

/-!
Verification development for the FIT activity-file synthesis engine and the
heart-rate backfill resolver of the `soma` repository (`sync/src/fit_generator.py`,
`sync/src/activity_replacer.py`, `sync/src/exercise_mapper.py`).

Python floats are modelled by exact rationals (`ℚ`), Python ints by `ℤ`/`ℕ`,
Python's `round` by round-half-to-even on `ℚ`, `int()` by truncation toward
zero, and fallible code (exceptions) by `Option`-valued functions where `none`
models a raised exception.
-/

namespace Soma

/-- Model of Python's built-in `round` on a real number: round half to even
(banker's rounding), returning an integer. -/
def pyround (q : ℚ) : ℤ :=
  if q - (⌊q⌋ : ℚ) < 1/2 then ⌊q⌋
  else if 1/2 < q - (⌊q⌋ : ℚ) then ⌊q⌋ + 1
  else if ⌊q⌋ % 2 = 0 then ⌊q⌋ else ⌊q⌋ + 1

/-- Model of Python's `int()` applied to a float: truncation toward zero. -/
def pytrunc (q : ℚ) : ℤ :=
  if 0 ≤ q then ⌊q⌋ else -⌊-q⌋

/-! ## Datetime model

`PyDateTime` models the result of parsing a timestamp with
`datetime.fromisoformat` / `datetime.strptime` in the source: a civil
date-time plus an optional UTC offset (`none` models a naive datetime).
CPython interprets naive datetimes in the system-local timezone when
converting to an epoch; the model fixes the local timezone to UTC. -/

structure PyDateTime where
  year : ℕ
  month : ℕ
  day : ℕ
  hour : ℕ
  minute : ℕ
  second : ℕ
  /-- UTC offset in minutes; `none` models a naive (timezone-free) datetime. -/
  utcOffsetMinutes : Option ℤ
deriving DecidableEq, Repr

/-- Gregorian leap-year test. -/
def isLeapYear (y : ℕ) : Bool :=
  (y % 4 == 0 && y % 100 != 0) || y % 400 == 0

/-- Number of days in a month of the Gregorian calendar. -/
def daysInMonth (y m : ℕ) : ℕ :=
  if m = 2 then (if isLeapYear y then 29 else 28)
  else if m = 4 ∨ m = 6 ∨ m = 9 ∨ m = 11 then 30
  else 31

/-- Days since the Unix epoch (1970-01-01) of a civil date, via the Julian
day number. All intermediate quantities are nonnegative for the years the
parser can produce (0000–9999). -/
def daysFromCivil (y m d : ℕ) : ℤ :=
  let a : ℤ := (14 - (m : ℤ)) / 12
  let y2 : ℤ := (y : ℤ) + 4800 - a
  let m2 : ℤ := (m : ℤ) + 12 * a - 3
  (d : ℤ) + (153 * m2 + 2) / 5 + 365 * y2 + y2 / 4 - y2 / 100 + y2 / 400 - 32045 - 2440588

/-- Seconds since the Unix epoch of a `PyDateTime`; a naive datetime is
interpreted as UTC (see the note on `PyDateTime`). Models
`datetime.timestamp()` for the whole-second datetimes the parser produces. -/
def PyDateTime.epochSeconds (dt : PyDateTime) : ℤ :=
  86400 * daysFromCivil dt.year dt.month dt.day
    + 3600 * (dt.hour : ℤ) + 60 * (dt.minute : ℤ) + (dt.second : ℤ)
    - 60 * dt.utcOffsetMinutes.getD 0

/-- Epoch seconds as a rational, modelling the float returned by
`datetime.timestamp()`. -/
def PyDateTime.timestampQ (dt : PyDateTime) : ℚ :=
  (dt.epochSeconds : ℚ)

/-- Model of datetime subtraction followed by `.total_seconds()`. Subtracting
a naive from an aware datetime (or vice versa) raises `TypeError` in Python,
modelled by `none`. -/
def pySub (a b : PyDateTime) : Option ℚ :=
  if a.utcOffsetMinutes.isSome = b.utcOffsetMinutes.isSome then
    some ((a.epochSeconds - b.epochSeconds : ℤ) : ℚ)
  else none

/-! ## Timestamp parsing

The source parses timestamps with `datetime.fromisoformat` (after replacing
`"Z"` with `"+00:00"`) and `datetime.strptime(..., "%Y-%m-%d %H:%M:%S")`.
The model below implements the subset of ISO-8601 these call sites feed in:
`YYYY-MM-DD`, optionally followed by a `'T'` or `' '` separator and
`HH:MM:SS`, optionally followed by a `±HH:MM` UTC offset. Any other string
fails to parse (`none`), modelling the `ValueError` Python raises. -/

/-- Numeric value of a decimal digit character, `none` for non-digits. -/
def digitVal (c : Char) : Option ℕ :=
  if c.isDigit then some (c.toNat - 48) else none

/-- Parse exactly two decimal digits. -/
def parseNat2 : List Char → Option (ℕ × List Char)
  | c1 :: c2 :: rest => do
    let d1 ← digitVal c1
    let d2 ← digitVal c2
    some (10 * d1 + d2, rest)
  | _ => none

/-- Parse exactly four decimal digits. -/
def parseNat4 : List Char → Option (ℕ × List Char)
  | c1 :: c2 :: c3 :: c4 :: rest => do
    let d1 ← digitVal c1
    let d2 ← digitVal c2
    let d3 ← digitVal c3
    let d4 ← digitVal c4
    some (1000 * d1 + 100 * d2 + 10 * d3 + d4, rest)
  | _ => none

/-- Consume one expected character. -/
def expectChar (c : Char) : List Char → Option (List Char)
  | x :: rest => if x = c then some rest else none
  | [] => none

/-- Parse a trailing `±HH:MM` UTC offset (or the end of input for a naive
datetime), returning the offset in minutes. -/
def parseTzOffset : List Char → Option (Option ℤ)
  | [] => some none
  | c :: rest =>
    if c = '+' ∨ c = '-' then do
      let (oh, r1) ← parseNat2 rest
      let r2 ← expectChar ':' r1
      let (om, r3) ← parseNat2 r2
      if r3 = [] ∧ oh ≤ 23 ∧ om ≤ 59 then
        some (some ((if c = '+' then 1 else -1) * (60 * (oh : ℤ) + (om : ℤ))))
      else none
    else none

/-- Model of `datetime.fromisoformat` on the formats used by this codebase
(see the section comment). -/
def pyFromIso (cs : List Char) : Option PyDateTime := do
  let (y, r1) ← parseNat4 cs
  let r2 ← expectChar '-' r1
  let (m, r3) ← parseNat2 r2
  let r4 ← expectChar '-' r3
  let (d, r5) ← parseNat2 r4
  if 1 ≤ m ∧ m ≤ 12 ∧ 1 ≤ d ∧ d ≤ daysInMonth y m then
    match r5 with
    | [] => some ⟨y, m, d, 0, 0, 0, none⟩
    | sep :: r6 =>
      if sep = 'T' ∨ sep = ' ' then do
        let (h, r7) ← parseNat2 r6
        let r8 ← expectChar ':' r7
        let (mi, r9) ← parseNat2 r8
        let r10 ← expectChar ':' r9
        let (s, r11) ← parseNat2 r10
        if h ≤ 23 ∧ mi ≤ 59 ∧ s ≤ 59 then do
          let off ← parseTzOffset r11
          some ⟨y, m, d, h, mi, s, off⟩
        else none
      else none
  else none

/-- Model of `str.replace("Z", "+00:00")` (character-wise, the needle is a
single character). -/
def pyReplaceZ (cs : List Char) : List Char :=
  cs.flatMap (fun c => if c = 'Z' then "+00:00".data else [c])

/-- Model of `str.strip()`. -/
def stripChars (cs : List Char) : List Char :=
  (((cs.dropWhile Char.isWhitespace).reverse).dropWhile Char.isWhitespace).reverse

/-- Model of `datetime.strptime(s, "%Y-%m-%d %H:%M:%S")` followed by
`.replace(tzinfo=timezone.utc)`: the whole string must match the format, and
the result is UTC-aware. -/
def pyStrptimeYmdHms (cs : List Char) : Option PyDateTime := do
  let (y, r1) ← parseNat4 cs
  let r2 ← expectChar '-' r1
  let (m, r3) ← parseNat2 r2
  let r4 ← expectChar '-' r3
  let (d, r5) ← parseNat2 r4
  let r6 ← expectChar ' ' r5
  let (h, r7) ← parseNat2 r6
  let r8 ← expectChar ':' r7
  let (mi, r9) ← parseNat2 r8
  let r10 ← expectChar ':' r9
  let (s, r11) ← parseNat2 r10
  if r11 = [] ∧ 1 ≤ m ∧ m ≤ 12 ∧ 1 ≤ d ∧ d ≤ daysInMonth y m
      ∧ h ≤ 23 ∧ mi ≤ 59 ∧ s ≤ 59 then
    some ⟨y, m, d, h, mi, s, some 0⟩
  else none

/-- Embedding of `fit_generator._parse_timestamp`: strip, then ISO-8601 (after
replacing `"Z"` with `"+00:00"`) when a `'T'` is present, else
`strptime("%Y-%m-%d %H:%M:%S")` with the result made UTC-aware. -/
def parse_timestamp (raw : String) : Option PyDateTime :=
  let cleaned := stripChars raw.data
  if cleaned.contains 'T' then
    pyFromIso (pyReplaceZ cleaned)
  else
    pyStrptimeYmdHms cleaned

/-! ## Exercise category lookup (`exercise_mapper.py`)

`HEVY_TO_GARMIN` transcribes the module-level Python dict literal entry by
entry, in source order. The literal contains one duplicated key
("Overhead Dumbbell Lunge"); a Python dict literal keeps the last assignment,
so `hevyToGarminGet` scans the reversed entry list. -/

/-- Entries of the `HEVY_TO_GARMIN` dict literal, in source order. -/
def HEVY_TO_GARMIN : List (String × ℕ × ℕ) := [
  ("Bench Press (Barbell)", 0, 1),
  ("Bench Press (Cable)", 0, 20),
  ("Bench Press (Dumbbell)", 0, 6),
  ("Bench Press (Smith Machine)", 0, 22),
  ("Bench Press - Close Grip (Barbell)", 0, 4),
  ("Bench Press - Wide Grip (Barbell)", 0, 25),
  ("Decline Bench Press (Barbell)", 0, 5),
  ("Decline Bench Press (Dumbbell)", 0, 5),
  ("Decline Bench Press (Machine)", 0, 5),
  ("Decline Bench Press (Smith Machine)", 0, 22),
  ("Feet Up Bench Press (Barbell)", 0, 1),
  ("Floor Press (Barbell)", 0, 3),
  ("Floor Press (Dumbbell)", 0, 7),
  ("Incline Bench Press (Barbell)", 0, 8),
  ("Incline Bench Press (Dumbbell)", 0, 9),
  ("Incline Bench Press (Smith Machine)", 0, 8),
  ("Incline Chest Press (Machine)", 0, 9),
  ("Iso-Lateral Chest Press (Machine)", 0, 6),
  ("Chest Press (Band)", 0, 1),
  ("Chest Press (Machine)", 0, 6),
  ("Dumbbell Squeeze Press", 0, 6),
  ("Hex Press (Dumbbell)", 0, 6),
  ("JM Press (Barbell)", 0, 4),
  ("Plate Press", 0, 12),
  ("Plate Squeeze (Svend Press)", 0, 12),
  ("Butterfly (Pec Deck)", 9, 2),
  ("Cable Fly Crossovers", 9, 0),
  ("Chest Fly (Band)", 9, 2),
  ("Chest Fly (Dumbbell)", 9, 2),
  ("Chest Fly (Machine)", 9, 2),
  ("Chest Fly (Suspension)", 9, 2),
  ("Decline Chest Fly (Dumbbell)", 9, 1),
  ("Incline Chest Fly (Dumbbell)", 9, 3),
  ("Low Cable Fly Crossovers", 9, 0),
  ("Seated Chest Flys (Cable)", 9, 0),
  ("Single Arm Cable Crossover", 9, 0),
  ("Clap Push Ups", 22, 7),
  ("Decline Push Up", 22, 13),
  ("Diamond Push Up", 22, 15),
  ("Incline Push Ups", 22, 27),
  ("Kneeling Push Up", 22, 33),
  ("One Arm Push Up", 22, 38),
  ("Pike Pushup", 22, 49),
  ("Plank Pushup", 22, 77),
  ("Push Up", 22, 77),
  ("Push Up (Weighted)", 22, 40),
  ("Push Up - Close Grip", 22, 11),
  ("Ring Push Up", 22, 75),
  ("Bench Dip", 30, 0),
  ("Chest Dip", 30, 2),
  ("Chest Dip (Assisted)", 30, 2),
  ("Chest Dip (Weighted)", 30, 40),
  ("Pullover (Dumbbell)", 21, 8),
  ("Pullover (Machine)", 21, 8),
  ("Bent Over Row (Band)", 23, 0),
  ("Bent Over Row (Barbell)", 23, 46),
  ("Bent Over Row (Dumbbell)", 23, 2),
  ("Chest Supported Incline Row (Dumbbell)", 23, 40),
  ("Dumbbell Row", 23, 2),
  ("Face Pull", 23, 5),
  ("Gorilla Row (Kettlebell)", 23, 9),
  ("Inverted Row", 23, 10),
  ("Iso-Lateral High Row (Machine)", 23, 18),
  ("Iso-Lateral Low Row", 23, 18),
  ("Iso-Lateral Row (Machine)", 23, 2),
  ("Landmine Row", 23, 13),
  ("Low Row (Suspension)", 23, 26),
  ("Meadows Rows (Barbell)", 23, 13),
  ("Pendlay Row (Barbell)", 23, 46),
  ("Renegade Row (Dumbbell)", 23, 15),
  ("Seated Cable Row - Bar Grip", 23, 18),
  ("Seated Cable Row - Bar Wide Grip", 23, 33),
  ("Seated Cable Row - V Grip (Cable)", 23, 32),
  ("Seated Row (Machine)", 23, 18),
  ("Single Arm Cable Row", 23, 20),
  ("Squat Row", 23, 18),
  ("T Bar Row", 23, 28),
  ("Chin Up", 21, 3),
  ("Chin Up (Assisted)", 21, 3),
  ("Chin Up (Weighted)", 21, 4),
  ("Kipping Pull Up", 21, 32),
  ("Kneeling Pulldown (band)", 21, 11),
  ("Lat Pulldown (Band)", 21, 13),
  ("Lat Pulldown (Cable)", 21, 13),
  ("Lat Pulldown (Machine)", 21, 13),
  ("Lat Pulldown - Close Grip (Cable)", 21, 5),
  ("Negative Pull Up", 21, 38),
  ("Pull Up", 21, 38),
  ("Pull Up (Assisted)", 21, 0),
  ("Pull Up (Band)", 21, 0),
  ("Pull Up (Weighted)", 21, 24),
  ("Reverse Grip Lat Pulldown (Cable)", 21, 18),
  ("Ring Pull Up", 21, 38),
  ("Rope Straight Arm Pulldown", 21, 20),
  ("Scapular Pull Ups", 21, 38),
  ("Single Arm Lat Pulldown", 21, 13),
  ("Sternum Pull up (Gironda)", 21, 38),
  ("Straight Arm Lat Pulldown (Cable)", 21, 20),
  ("Vertical Traction (Machine)", 21, 13),
  ("Wide Pull Up", 21, 26),
  ("Back Extension (Hyperextension)", 13, 25),
  ("Back Extension (Machine)", 13, 25),
  ("Back Extension (Weighted Hyperextension)", 13, 26),
  ("Reverse Hyperextension", 13, 4),
  ("Arnold Press (Dumbbell)", 24, 1),
  ("Kettlebell Shoulder Press", 24, 15),
  ("Overhead Press (Barbell)", 24, 14),
  ("Overhead Press (Dumbbell)", 24, 15),
  ("Overhead Press (Smith Machine)", 24, 20),
  ("Push Press", 24, 3),
  ("Seated Overhead Press (Barbell)", 24, 16),
  ("Seated Overhead Press (Dumbbell)", 24, 17),
  ("Seated Shoulder Press (Machine)", 24, 20),
  ("Shoulder Press (Dumbbell)", 24, 15),
  ("Shoulder Press (Machine Plates)", 24, 20),
  ("Single Arm Landmine Press (Barbell)", 24, 18),
  ("Standing Military Press (Barbell)", 24, 14),
  ("Around The World", 14, 32),
  ("Chest Supported Y Raise (Dumbbell)", 14, 10),
  ("Front Raise (Band)", 14, 10),
  ("Front Raise (Barbell)", 14, 10),
  ("Front Raise (Cable)", 14, 5),
  ("Front Raise (Dumbbell)", 14, 10),
  ("Front Raise (Suspension)", 14, 10),
  ("Lateral Raise (Band)", 14, 11),
  ("Lateral Raise (Cable)", 14, 14),
  ("Lateral Raise (Dumbbell)", 14, 11),
  ("Lateral Raise (Machine)", 14, 24),
  ("Overhead Plate Raise", 14, 16),
  ("Plate Front Raise", 14, 16),
  ("Seated Lateral Raise (Dumbbell)", 14, 24),
  ("Single Arm Lateral Raise (Cable)", 14, 14),
  ("Muscle Up", 14, 13),
  ("Ring Dips", 14, 17),
  ("Chest Supported Reverse Fly (Dumbbell)", 9, 5),
  ("Rear Delt Reverse Fly (Cable)", 9, 6),
  ("Rear Delt Reverse Fly (Dumbbell)", 9, 5),
  ("Rear Delt Reverse Fly (Machine)", 9, 5),
  ("Rear Deltoid", 9, 5),
  ("Reverse Fly Single Arm (Cable)", 9, 6),
  ("Band Pullaparts", 9, 5),
  ("Shoulder Extension", 25, 3),
  ("Shoulder Taps", 25, 3),
  ("Shrug (Barbell)", 26, 1),
  ("Shrug (Cable)", 26, 5),
  ("Shrug (Dumbbell)", 26, 5),
  ("Shrug (Machine)", 26, 5),
  ("Shrug (Smith Machine)", 26, 1),
  ("Upright Row (Barbell)", 26, 2),
  ("Upright Row (Cable)", 26, 6),
  ("Upright Row (Dumbbell)", 26, 6),
  ("Jump Shrug", 26, 0),
  ("21s Bicep Curl", 7, 3),
  ("Behind the Back Bicep Wrist Curl (Barbell)", 7, 4),
  ("Behind the Back Curl (Cable)", 7, 7),
  ("Bicep Curl (Barbell)", 7, 3),
  ("Bicep Curl (Cable)", 7, 8),
  ("Bicep Curl (Dumbbell)", 7, 37),
  ("Bicep Curl (Machine)", 7, 8),
  ("Bicep Curl (Suspension)", 7, 37),
  ("Concentration Curl", 7, 37),
  ("Cross Body Hammer Curl", 7, 12),
  ("Drag Curl", 7, 3),
  ("EZ Bar Biceps Curl", 7, 19),
  ("Hammer Curl (Band)", 7, 16),
  ("Hammer Curl (Cable)", 7, 9),
  ("Hammer Curl (Dumbbell)", 7, 16),
  ("Kettlebell Curl", 7, 24),
  ("Overhead Curl (Cable)", 7, 8),
  ("Pinwheel Curl (Dumbbell)", 7, 12),
  ("Plate Curl", 7, 27),
  ("Preacher Curl (Barbell)", 7, 19),
  ("Preacher Curl (Dumbbell)", 7, 26),
  ("Preacher Curl (Machine)", 7, 28),
  ("Reverse Curl (Barbell)", 7, 31),
  ("Reverse Curl (Cable)", 7, 31),
  ("Reverse Curl (Dumbbell)", 7, 31),
  ("Reverse EZ-Bar Curl", 7, 29),
  ("Reverse Grip Concentration Curl", 7, 31),
  ("Rope Cable Curl", 7, 8),
  ("Seated Incline Curl (Dumbbell)", 7, 22),
  ("Seated Palms Up Wrist Curl", 7, 5),
  ("Seated Wrist Extension (Barbell)", 7, 4),
  ("Single Arm Curl (Cable)", 7, 7),
  ("Spider Curl (Barbell)", 7, 3),
  ("Spider Curl (Dumbbell)", 7, 37),
  ("Waiter Curl (Dumbbell)", 7, 37),
  ("Wrist Roller", 7, 18),
  ("Zottman Curl (Dumbbell)", 7, 42),
  ("Floor Triceps Dip", 30, 0),
  ("One-Arm Cable Cross Body Triceps Extension", 30, 3),
  ("Overhead Triceps Extension (Cable)", 30, 5),
  ("Seated Dip Machine", 30, 2),
  ("Seated Triceps Press", 30, 20),
  ("Single Arm Tricep Extension (Dumbbell)", 30, 24),
  ("Single Arm Triceps Pushdown (Cable)", 30, 39),
  ("Skullcrusher (Barbell)", 30, 13),
  ("Skullcrusher (Dumbbell)", 30, 7),
  ("Triceps Dip", 30, 2),
  ("Triceps Dip (Assisted)", 30, 2),
  ("Triceps Dip (Weighted)", 30, 40),
  ("Triceps Extension (Barbell)", 30, 8),
  ("Triceps Extension (Cable)", 30, 5),
  ("Triceps Extension (Dumbbell)", 30, 15),
  ("Triceps Extension (Machine)", 30, 5),
  ("Triceps Extension (Suspension)", 30, 5),
  ("Triceps Kickback (Cable)", 30, 3),
  ("Triceps Kickback (Dumbbell)", 30, 6),
  ("Triceps Pressdown", 30, 39),
  ("Triceps Pushdown", 30, 39),
  ("Triceps Rope Pushdown", 30, 19),
  ("Wide-Elbow Triceps Press (Dumbbell)", 30, 15),
  ("Assisted Pistol Squats", 28, 47),
  ("Belt Squat (Machine)", 28, 61),
  ("Box Squat (Barbell)", 28, 7),
  ("Front Squat", 28, 8),
  ("Full Squat", 28, 6),
  ("Goblet Squat", 28, 37),
  ("Hack Squat", 28, 9),
  ("Hack Squat (Machine)", 28, 9),
  ("Kettlebell Goblet Squat", 28, 37),
  ("Landmine Squat and Press", 28, 79),
  ("Lateral Squat", 28, 61),
  ("Leg Press (Machine)", 28, 0),
  ("Leg Press Horizontal (Machine)", 28, 0),
  ("Overhead Squat", 28, 44),
  ("Pause Squat (Barbell)", 28, 6),
  ("Pendulum Squat (Machine)", 28, 61),
  ("Pistol Squat", 28, 47),
  ("Single Leg Press (Machine)", 28, 0),
  ("Sissy Squat (Weighted)", 28, 62),
  ("Squat (Band)", 28, 61),
  ("Squat (Barbell)", 28, 6),
  ("Squat (Bodyweight)", 28, 61),
  ("Squat (Dumbbell)", 28, 29),
  ("Squat (Machine)", 28, 61),
  ("Squat (Smith Machine)", 28, 6),
  ("Squat (Suspension)", 28, 61),
  ("Sumo Squat", 28, 69),
  ("Sumo Squat (Barbell)", 28, 69),
  ("Sumo Squat (Dumbbell)", 28, 69),
  ("Sumo Squat (Kettlebell)", 28, 69),
  ("Thruster (Barbell)", 28, 79),
  ("Thruster (Kettlebell)", 28, 79),
  ("Wall Ball", 28, 83),
  ("Wall Sit", 28, 20),
  ("Zercher Squat", 28, 86),
  ("Dumbbell Step Up", 28, 32),
  ("Step Up", 28, 66),
  ("Stair Machine (Floors)", 47, 0),
  ("Stair Machine (Steps)", 47, 0),
  ("Bulgarian Split Squat", 17, 7),
  ("Curtsy Lunge (Dumbbell)", 17, 21),
  ("Jumping Lunge", 20, 0),
  ("Lateral Lunge", 17, 32),
  ("Lunge", 17, 32),
  ("Lunge (Barbell)", 17, 10),
  ("Lunge (Dumbbell)", 17, 21),
  ("Overhead Dumbbell Lunge", 17, 40),
  ("Reverse Lunge", 17, 32),
  ("Reverse Lunge (Barbell)", 17, 11),
  ("Reverse Lunge (Dumbbell)", 17, 21),
  ("Split Squat (Dumbbell)", 17, 28),
  ("Walking Lunge", 17, 78),
  ("Walking Lunge (Dumbbell)", 17, 77),
  ("Deadlift (Band)", 8, 0),
  ("Deadlift (Barbell)", 8, 0),
  ("Deadlift (Dumbbell)", 8, 2),
  ("Deadlift (Smith Machine)", 8, 0),
  ("Deadlift (Trap bar)", 8, 17),
  ("Deadlift High Pull", 8, 16),
  ("Rack Pull", 8, 7),
  ("Romanian Deadlift (Barbell)", 8, 1),
  ("Romanian Deadlift (Dumbbell)", 8, 4),
  ("Single Leg Romanian Deadlift (Barbell)", 8, 10),
  ("Single Leg Romanian Deadlift (Dumbbell)", 8, 14),
  ("Straight Leg Deadlift", 8, 1),
  ("Sumo Deadlift", 8, 15),
  ("Good Morning (Barbell)", 15, 2),
  ("Lying Leg Curl (Machine)", 15, 0),
  ("Nordic Hamstrings Curls", 15, 0),
  ("Seated Leg Curl (Machine)", 15, 0),
  ("Standing Leg Curls", 15, 0),
  ("Leg Extension (Machine)", 6, 33),
  ("Single Leg Extensions", 6, 33),
  ("Calf Extension (Machine)", 1, 18),
  ("Calf Press (Machine)", 1, 18),
  ("Seated Calf Raise", 1, 6),
  ("Single Leg Standing Calf Raise", 1, 15),
  ("Single Leg Standing Calf Raise (Barbell)", 1, 15),
  ("Single Leg Standing Calf Raise (Dumbbell)", 1, 16),
  ("Single Leg Standing Calf Raise (Machine)", 1, 15),
  ("Standing Calf Raise", 1, 18),
  ("Standing Calf Raise (Barbell)", 1, 17),
  ("Standing Calf Raise (Dumbbell)", 1, 20),
  ("Standing Calf Raise (Machine)", 1, 18),
  ("Standing Calf Raise (Smith)", 1, 17),
  ("Frog Pumps (Dumbbell)", 10, 11),
  ("Glute Bridge", 10, 11),
  ("Glute Ham Raise", 10, 11),
  ("Hip Thrust", 10, 0),
  ("Hip Thrust (Barbell)", 10, 1),
  ("Hip Thrust (Machine)", 10, 1),
  ("Hip Thrust (Smith Machine)", 10, 1),
  ("Partial Glute Bridge (Barbell)", 10, 0),
  ("Single Leg Glute Bridge", 10, 30),
  ("Single Leg Hip Thrust", 10, 30),
  ("Single Leg Hip Thrust (Dumbbell)", 10, 30),
  ("Clamshell", 10, 44),
  ("Fire Hydrants", 11, 5),
  ("Glute Kickback (Machine)", 11, 17),
  ("Glute Kickback on Floor", 11, 17),
  ("Hip Abduction (Machine)", 11, 28),
  ("Hip Adduction (Machine)", 11, 25),
  ("Lateral Band Walks", 11, 11),
  ("Lateral Leg Raises", 11, 21),
  ("Rear Kick (Machine)", 11, 30),
  ("Standing Cable Glute Kickbacks", 11, 30),
  ("Kettlebell Swing", 10, 23),
  ("Ab Scissors", 5, 49),
  ("Cable Core Palloff Press", 5, 46),
  ("Cable Twist (Down to up)", 4, 2),
  ("Cable Twist (Up to down)", 4, 2),
  ("Russian Twist (Bodyweight)", 5, 46),
  ("Russian Twist (Weighted)", 5, 46),
  ("Side Bend", 5, 8),
  ("Side Bend (Dumbbell)", 5, 9),
  ("Torso Rotation", 4, 2),
  ("Ab Wheel", 5, 18),
  ("Bicycle Crunch", 6, 0),
  ("Bicycle Crunch Raised Legs", 6, 0),
  ("Cable Crunch", 6, 1),
  ("Crunch", 6, 83),
  ("Crunch (Machine)", 6, 28),
  ("Crunch (Weighted)", 6, 79),
  ("Decline Crunch", 6, 83),
  ("Decline Crunch (Weighted)", 6, 79),
  ("Flutter Kicks", 6, 13),
  ("Heel Taps", 6, 83),
  ("Hollow Rock", 6, 24),
  ("Oblique Crunch", 6, 83),
  ("Reverse Crunch", 6, 46),
  ("Toes to Bar", 6, 81),
  ("Elbow to Knee", 27, 37),
  ("Jackknife Sit Up", 27, 37),
  ("Sit Up", 27, 37),
  ("Sit Up (Weighted)", 27, 34),
  ("Toe Touch", 27, 37),
  ("V Up", 27, 31),
  ("Dragon Flag", 16, 1),
  ("Dragonfly", 16, 1),
  ("Hanging Knee Raise", 16, 0),
  ("Hanging Leg Raise", 16, 1),
  ("Knee Raise Parallel Bars", 16, 0),
  ("Leg Raise Parallel Bars", 16, 1),
  ("Lying Knee Raise", 16, 8),
  ("Lying Leg Raise", 16, 8),
  ("Mountain Climber", 19, 34),
  ("Plank", 19, 43),
  ("Reverse Plank", 19, 43),
  ("Side Plank", 19, 66),
  ("Spiderman", 19, 90),
  ("Superman", 13, 29),
  ("Clean", 18, 11),
  ("Clean Pull", 18, 11),
  ("Clean and Jerk", 18, 5),
  ("Clean and Press", 18, 5),
  ("Dumbbell Snatch", 18, 16),
  ("Hang Clean", 18, 0),
  ("Hang Snatch", 18, 6),
  ("Kettlebell Clean", 18, 11),
  ("Kettlebell Snatch", 18, 18),
  ("Power Clean", 18, 2),
  ("Power Snatch", 18, 3),
  ("Press Under", 18, 11),
  ("Snatch", 18, 9),
  ("Split Jerk", 18, 10),
  ("Kettlebell High Pull", 18, 8),
  ("Box Jump", 20, 13),
  ("Frog Jumps", 20, 3),
  ("High Knee Skips", 20, 3),
  ("Jump Squat", 20, 3),
  ("Lateral Box Jump", 20, 19),
  ("Ball Slams", 20, 25),
  ("Sled Push", 20, 29),
  ("Burpee", 29, 0),
  ("Burpee Over the Bar", 29, 0),
  ("Farmers Walk", 3, 1),
  ("Overhead Dumbbell Lunge", 3, 4),
  ("Warm Up", 31, 0),
  ("Bird Dog", 11, 1),
  ("Dead Bug", 11, 1),
  ("Dead Hang", 21, 38),
  ("Downward Dog", 31, 0),
  ("Front Lever Hold", 21, 38),
  ("Front Lever Raise", 21, 38),
  ("Handstand Hold", 22, 25),
  ("Handstand Push Up", 22, 25),
  ("Jack Knife (Suspension)", 6, 83),
  ("L-Sit Hold", 16, 1),
  ("Landmine 180", 4, 2),
  ("Lying Neck Curls", 65534, 0),
  ("Lying Neck Curls (Weighted)", 65534, 0),
  ("Lying Neck Extension", 65534, 0),
  ("Lying Neck Extension (Weighted)", 65534, 0),
  ("Kettlebell Around the World", 5, 46),
  ("Kettlebell Halo", 25, 3),
  ("Kettlebell Turkish Get Up", 29, 0),
  ("Aerobics", 2, 0),
  ("Air Bike", 41, 0),
  ("Battle Ropes", 38, 0),
  ("Boxing", 2, 42),
  ("Climbing", 2, 0),
  ("Cycling", 33, 0),
  ("Elliptical Trainer", 39, 0),
  ("HIIT", 2, 0),
  ("Hiking", 32, 1),
  ("Jump Rope", 2, 6),
  ("Jumping Jack", 2, 12),
  ("Pilates", 2, 0),
  ("Rowing Machine", 42, 0),
  ("Skating", 2, 0),
  ("Skiing", 2, 0),
  ("Snowboarding", 2, 0),
  ("Spinning", 41, 3),
  ("Stretching", 31, 0),
  ("Swimming", 2, 0),
  ("Treadmill", 52, 1),
  ("Yoga", 36, 0),
  ("High Knees", 2, 0),
  ("Sprints", 32, 3),
  ("Cable Pull Through", 10, 11),
  ("Running", 32, 0),
  ("Walking", 32, 1)
]

/-- Model of `HEVY_TO_GARMIN.get(name)`: Python dict semantics (the last
assignment to a duplicated key wins). -/
def hevyToGarminGet (name : String) : Option (ℕ × ℕ) :=
  HEVY_TO_GARMIN.reverse.lookup name

/-- Sentinel category for unknown exercise names (`_UNKNOWN_CATEGORY`). -/
def _UNKNOWN_CATEGORY : ℕ := 65534

/-- Sentinel subcategory for unknown exercise names (`_UNKNOWN_SUBCATEGORY`). -/
def _UNKNOWN_SUBCATEGORY : ℕ := 0

/-- Embedding of `exercise_mapper.lookup_exercise`. -/
def lookup_exercise (hevy_name : String) : ℕ × ℕ × String :=
  match hevyToGarminGet hevy_name with
  | some pair => (pair.1, pair.2, hevy_name)
  | none => (_UNKNOWN_CATEGORY, _UNKNOWN_SUBCATEGORY, hevy_name)

/-! ## Calorie estimator (`fit_generator._calc_calories`) -/

/-- Timing constant `_WORKING_SET_DURATION` (seconds). -/
def _WORKING_SET_DURATION : ℚ := 40.0

/-- Timing constant `_WARMUP_SET_DURATION` (seconds). -/
def _WARMUP_SET_DURATION : ℚ := 25.0

/-- Timing constant `_REST_BETWEEN_SETS` (seconds). -/
def _REST_BETWEEN_SETS : ℚ := 75.0

/-- Timing constant `_REST_BETWEEN_EXERCISES` (seconds). -/
def _REST_BETWEEN_EXERCISES : ℚ := 120.0

/-- Scale clamp lower bound `_MIN_SCALE`. -/
def _MIN_SCALE : ℚ := 0.3

/-- Scale clamp upper bound `_MAX_SCALE`. -/
def _MAX_SCALE : ℚ := 2.0

/-- Subject profile constant `_USER_WEIGHT_KG`. -/
def _USER_WEIGHT_KG : ℚ := 80.5

/-- Subject profile constant `_USER_BIRTH_YEAR`. -/
def _USER_BIRTH_YEAR : ℤ := 1994

/-- Subject profile constant `_USER_VO2MAX`. -/
def _USER_VO2MAX : ℚ := 50.0

/-- Fallback heart rate `_DEFAULT_HR_BPM`. -/
def _DEFAULT_HR_BPM : ℤ := 90

/-- The `total` accumulated by the loop in `_calc_calories`: each sample
contributes `max(0, keytel-rate) * interval_min` where
`interval_min = (duration_s / len(samples)) / 60`. -/
def calcCaloriesTotal (hr_samples : List ℤ) (duration_s : ℚ) (workout_year : ℤ) : ℚ :=
  let age : ℤ := workout_year - _USER_BIRTH_YEAR
  let samples := if hr_samples = [] then [_DEFAULT_HR_BPM] else hr_samples
  let interval_min : ℚ := (duration_s / (samples.length : ℚ)) / 60
  (samples.map (fun hr =>
    max 0 ((-95.7735 + 0.634 * (hr : ℚ) + 0.404 * _USER_VO2MAX
        + 0.394 * _USER_WEIGHT_KG + 0.271 * (age : ℚ)) / 4.184)
      * interval_min)).sum

/-- Embedding of `fit_generator._calc_calories`. -/
def _calc_calories (hr_samples : List ℤ) (duration_s : ℚ) (workout_year : ℤ) : ℤ :=
  pyround (calcCaloriesTotal hr_samples duration_s workout_year)

/-! ## Heart-rate resolver (`activity_replacer.py`)

The database is modelled at the point the source consumes it: one
`List HREntry` per fetched `heart_rates` row, where an entry is the pair of
optional ints the source validates (`entry[0]`, `entry[1]`); entries that are
not 2-element lists of numbers are covered by the `none` cases. The SQL
date-window row selection happens before this point and is part of the
`rows` parameter. -/

/-- One element of a row's `heartRateValues` list: optional timestamp (ms)
and optional heart-rate value. -/
abbrev HREntry := Option ℤ × Option ℤ

/-- Fallback-window constant `_FALLBACK_HR_WINDOW`. -/
def _FALLBACK_HR_WINDOW : ℕ := 10

/-- Minimum exercise-intensity threshold `_MIN_EXERCISE_HR` (bpm). -/
def _MIN_EXERCISE_HR : ℚ := 65

/-- Embedding of `activity_replacer.get_daily_hr_for_window`: parse the two
window timestamps (a `ValueError` from a malformed timestamp is `none`),
convert to epoch milliseconds, and keep every well-formed entry whose
timestamp lies inside the window. -/
def get_daily_hr_for_window (rows : List (List HREntry))
    (start_utc end_utc : String) : Option (List ℤ) := do
  let start_dt ← pyFromIso (pyReplaceZ start_utc.data)
  let end_dt ← pyFromIso (pyReplaceZ end_utc.data)
  let start_ms := pytrunc (start_dt.timestampQ * 1000)
  let end_ms := pytrunc (end_dt.timestampQ * 1000)
  some (rows.flatMap (fun row => row.filterMap (fun entry =>
    match entry with
    | (some t, some v) => if start_ms ≤ t ∧ t ≤ end_ms then some v else none
    | _ => none)))

/-- Embedding of `activity_replacer.resolve_hr_samples`. The workout's
`start_time`/`end_time` strings (missing keys model as `""`, matching
`hevy_workout.get(..., "")`) and the daily-monitoring rows stand in for
`conn` and `hevy_workout`; `none` models a raised exception. -/
def resolve_hr_samples (rows : List (List HREntry))
    (start_time end_time : String) (recent_hr_avgs : List ℚ) :
    Option (List ℤ × String) :=
  let fallback : List ℤ × String :=
    if 1 ≤ recent_hr_avgs.length then
      let window := recent_hr_avgs.take _FALLBACK_HR_WINDOW
      let avg_hr := pyround (window.sum / (window.length : ℚ))
      (List.replicate 30 avg_hr, "avg_" ++ toString window.length)
    else
      (List.replicate 30 _DEFAULT_HR_BPM, "static")
  if start_time ≠ "" ∧ end_time ≠ "" then
    match get_daily_hr_for_window rows start_time end_time with
    | none => none
    | some hr =>
      if hr ≠ [] then
        if _MIN_EXERCISE_HR ≤ (hr.sum : ℚ) / (hr.length : ℚ) then
          some (hr, "daily")
        else
          some fallback
      else
        some fallback
  else
    some fallback

/-! ## Set-timeline synthesizer (`fit_generator.generate_fit`) -/

/-- One set of a Hevy workout, with the optional fields `generate_fit`
reads (`s.get("type", "normal")`, `s.get("reps")`, `s.get("weight_kg")`);
a missing key is `none`. -/
structure SetEntry where
  type : Option String
  reps : Option ℤ
  weight_kg : Option ℚ
deriving DecidableEq, Repr

/-- One exercise of a Hevy workout. -/
structure ExerciseEntry where
  title : String
  sets : List SetEntry
deriving DecidableEq, Repr

/-- A Hevy workout as `generate_fit` consumes it. -/
structure Workout where
  start_time : String
  end_time : String
  exercises : List ExerciseEntry
deriving DecidableEq, Repr

/-- One element of `all_sets_info` in `generate_fit`. -/
structure SetInfo where
  ex_idx : ℕ
  set_data : SetEntry
  set_dur : ℚ
  rest_dur : ℚ
  is_warmup : Bool
deriving DecidableEq, Repr

/-- Embedding of the flattening loop of `generate_fit` that builds
`all_sets_info`: exercises in order, sets in order, nominal active duration
by set kind and nominal rest duration by position. -/
def flattenSets (exercises : List ExerciseEntry) : List SetInfo :=
  let num_exercises := exercises.length
  exercises.enum.flatMap (fun p =>
    let ex_idx := p.1
    let sets := p.2.sets
    sets.enum.map (fun q =>
      let s_idx := q.1
      let s := q.2
      let is_warmup := (s.type.getD "normal") == "warmup"
      let set_dur := if is_warmup then _WARMUP_SET_DURATION else _WORKING_SET_DURATION
      let is_last_set_of_exercise := s_idx = sets.length - 1
      let is_last_exercise := ex_idx = num_exercises - 1
      let is_very_last := is_last_set_of_exercise ∧ is_last_exercise
      let rest_dur := if is_very_last then 0
        else if is_last_set_of_exercise then _REST_BETWEEN_EXERCISES
        else _REST_BETWEEN_SETS
      { ex_idx := ex_idx, set_data := s, set_dur := set_dur,
        rest_dur := rest_dur, is_warmup := is_warmup }))

/-- The `ideal_total` computed by `generate_fit`: unscaled sum of active and
rest durations over the flattened sets. -/
def ideal_total (exercises : List ExerciseEntry) : ℚ :=
  ((flattenSets exercises).map (fun si => si.set_dur + si.rest_dur)).sum

/-- The scale factor computed by `generate_fit`:
`clamp(duration_s / ideal_total, _MIN_SCALE, _MAX_SCALE)` when
`ideal_total > 0`, else `1.0`. -/
def scaleFor (exercises : List ExerciseEntry) (duration_s : ℚ) : ℚ :=
  if 0 < ideal_total exercises then
    max _MIN_SCALE (min _MAX_SCALE (duration_s / ideal_total exercises))
  else
    1.0

/-- A flattened set together with its assigned start/end offsets (seconds
from workout start), as computed by the cursor loop of `generate_fit`. -/
structure TimedSet where
  info : SetInfo
  start_offset_s : ℚ
  end_offset_s : ℚ
deriving DecidableEq, Repr

/-- Embedding of the cursor loop of `generate_fit`: each set occupies
`[cursor, cursor + set_dur*scale]` and the cursor then advances past the
scaled rest. -/
def assignOffsets (scale : ℚ) : List SetInfo → ℚ → List TimedSet
  | [], _ => []
  | si :: rest, cursor =>
    let e := cursor + si.set_dur * scale
    ⟨si, cursor, e⟩ :: assignOffsets scale rest (e + si.rest_dur * scale)

/-- Payload of a timeline entry: a heart-rate `RecordMessage` or an
active/rest `SetMessage` with the fields `generate_fit` sets on it. -/
inductive FitMsg where
  | record (heart_rate : ℤ)
  | activeSet (start_time : ℤ) (duration : ℚ) (category : ℕ) (category_subtype : ℕ)
      (reps : Option ℤ) (weight : Option ℚ) (message_index : ℕ) (workout_step_index : ℕ)
  | restSet (start_time : ℤ) (duration : ℚ) (message_index : ℕ) (workout_step_index : ℕ)
deriving DecidableEq, Repr

/-- A timeline entry `(t_ms, type, message)` exactly as the source builds
them: timestamp in epoch milliseconds and the tag `"record"` or `"set"`. -/
abbrev TimelineEvent := ℤ × String × FitMsg

/-- The heart-rate record events of the timeline: samples distributed at the
rounded interval `round(duration_s * 1000 / (n - 1))` ms (a single sample is
placed at offset 0). -/
def hrEvents (hr_samples : List ℤ) (start_ms : ℤ) (duration_s : ℚ) :
    List TimelineEvent :=
  if hr_samples = [] then []
  else
    let n := hr_samples.length
    let hr_interval_ms : ℤ :=
      if n = 1 then 0 else pyround (duration_s * 1000 / ((n : ℚ) - 1))
    hr_samples.enum.map (fun p =>
      let t_ms := start_ms + (if 1 < n then (p.1 : ℤ) * hr_interval_ms else 0)
      (t_ms, "record", FitMsg.record p.2))

/-- Category pair of the exercise a set belongs to
(`lookup_exercise(exercises[ex_idx]["title"])` in the source; `flattenSets`
only produces in-range indices, so the out-of-range default is never hit). -/
def categoryOf (exercises : List ExerciseEntry) (ex_idx : ℕ) : ℕ × ℕ × String :=
  match exercises.get? ex_idx with
  | some ex => lookup_exercise ex.title
  | none => lookup_exercise ""

/-- The set events of the timeline: one active `SetMessage` per flattened
set at its end offset, followed (when `rest_dur > 0`) by a rest `SetMessage`
at the end of the scaled rest; `msg_index` counts emitted set messages. -/
def setEvents (exercises : List ExerciseEntry) (start_ms : ℤ) (scale : ℚ) :
    List TimedSet → ℕ → List TimelineEvent
  | [], _ => []
  | ts :: rest, msg_index =>
    let si := ts.info
    let cat := categoryOf exercises si.ex_idx
    let set_start_ms := start_ms + pyround (ts.start_offset_s * 1000)
    let set_end_ms := start_ms + pyround (ts.end_offset_s * 1000)
    let set_duration_s := ts.end_offset_s - ts.start_offset_s
    let active : TimelineEvent := (set_end_ms, "set",
      FitMsg.activeSet set_start_ms set_duration_s cat.1 cat.2.1
        si.set_data.reps si.set_data.weight_kg msg_index si.ex_idx)
    if 0 < si.rest_dur then
      let rest_dur_scaled := si.rest_dur * scale
      let rest_end_ms := set_end_ms + pyround (rest_dur_scaled * 1000)
      active :: (rest_end_ms, "set",
          FitMsg.restSet set_end_ms rest_dur_scaled (msg_index + 1) si.ex_idx)
        :: setEvents exercises start_ms scale rest (msg_index + 2)
    else
      active :: setEvents exercises start_ms scale rest (msg_index + 1)

/-- Sort key used by `timeline.sort(key=lambda x: (x[0], 0 if x[1] == "record" else 1))`. -/
def sortKey (e : TimelineEvent) : ℤ × ℕ :=
  (e.1, if e.2.1 == "record" then 0 else 1)

/-- The comparison realising Python's lexicographic tuple order on `sortKey`. -/
def timelineLe (a b : TimelineEvent) : Bool :=
  decide ((sortKey a).1 < (sortKey b).1
    ∨ ((sortKey a).1 = (sortKey b).1 ∧ (sortKey a).2 ≤ (sortKey b).2))

/-- The merged, sorted event timeline of `generate_fit` (step 5 of the
builder): heart-rate records plus set messages, stably sorted by
`(timestamp, record-before-set)`. -/
def buildTimeline (exercises : List ExerciseEntry) (hr_samples : List ℤ)
    (start_ms : ℤ) (duration_s : ℚ) : List TimelineEvent :=
  let scale := scaleFor exercises duration_s
  let timed := assignOffsets scale (flattenSets exercises) 0
  (hrEvents hr_samples start_ms duration_s
    ++ setEvents exercises start_ms scale timed 0).mergeSort timelineLe

/-- The summary dict `generate_fit` returns (the written file itself is
I/O and out of the model; the timeline the file body is built from is kept). -/
structure FitResult where
  exercises : ℕ
  total_sets : ℕ
  hr_samples : ℕ
  calories : ℤ
  avg_hr : Option ℤ
  duration_s : ℚ
  timeline : List TimelineEvent
deriving DecidableEq, Repr

/-- Embedding of `fit_generator.generate_fit` up to the returned summary:
parse the window, compute duration, calories, the flattened sets and the
sorted timeline. `none` models a raised exception (unparsable timestamp, or
subtracting naive and aware datetimes). -/
def generate_fit (hevy_workout : Workout) (hr_samples : Option (List ℤ)) :
    Option FitResult := do
  let hr := hr_samples.getD []
  let start_dt ← parse_timestamp hevy_workout.start_time
  let end_dt ← parse_timestamp hevy_workout.end_time
  let duration_s ← pySub end_dt start_dt
  let start_ms := pyround (start_dt.timestampQ * 1000)
  let calories := _calc_calories hr duration_s (start_dt.year : ℤ)
  let tl := buildTimeline hevy_workout.exercises hr start_ms duration_s
  let avg_hr := if hr ≠ [] then some (pyround ((hr.sum : ℚ) / (hr.length : ℚ))) else none
  some { exercises := hevy_workout.exercises.length,
         total_sets := (flattenSets hevy_workout.exercises).length,
         hr_samples := hr.length,
         calories := calories,
         avg_hr := avg_hr,
         duration_s := duration_s,
         timeline := tl }

/-- Specification-side restatement of the flattening step, written from the
spec's words with explicit position counters: nominal active duration 25 s
for a warmup set and 40 s otherwise; nominal rest 0 s after the very last
set of the very last exercise, 120 s after the last set of any other
exercise, 75 s otherwise (inner recursion over one exercise's sets). -/
def flattenSpecSets (num_exercises ex_idx num_sets : ℕ) :
    ℕ → List SetEntry → List SetInfo
  | _, [] => []
  | s_idx, s :: rest =>
    { ex_idx := ex_idx, set_data := s,
      set_dur := if (s.type.getD "normal") == "warmup" then 25 else 40,
      rest_dur := if s_idx = num_sets - 1 ∧ ex_idx = num_exercises - 1 then 0
        else if s_idx = num_sets - 1 then 120
        else 75,
      is_warmup := (s.type.getD "normal") == "warmup" }
      :: flattenSpecSets num_exercises ex_idx num_sets (s_idx + 1) rest

/-- Specification-side restatement of the flattening step: outer recursion
over the exercises. -/
def flattenSpecExs (num_exercises : ℕ) : ℕ → List ExerciseEntry → List SetInfo
  | _, [] => []
  | ex_idx, ex :: rest =>
    flattenSpecSets num_exercises ex_idx ex.sets.length 0 ex.sets
      ++ flattenSpecExs num_exercises (ex_idx + 1) rest

/-- Specification-side restatement of the flattening step (claim C5). -/
def flattenSpec (exercises : List ExerciseEntry) : List SetInfo :=
  flattenSpecExs exercises.length 0 exercises

/-- A workout body with one warmup set followed by one normal set. -/
def warmupPairExercises : List ExerciseEntry :=
  [{ title := "Bench Press (Barbell)",
     sets := [{ type := some "warmup", reps := some 10, weight_kg := some 40 },
              { type := none, reps := some 8, weight_kg := some 60 }] }]

/-! ## Witness inputs -/

/-- A workout body with a single normal set (used to exercise the scale
clamp). -/
def oneSetExercises : List ExerciseEntry :=
  [{ title := "Squat (Barbell)",
     sets := [{ type := some "normal", reps := some 5, weight_kg := some 100 }] }]

/-- Two daily-monitoring rows with two in-window samples on 2024-01-01. -/
def sampleRows : List (List HREntry) :=
  [[(some 1704067200000, some 120), (some 1704068000000, some 130)]]

/-- A workout whose end time is one hour before its start time. -/
def negDurationWorkout : Workout :=
  { start_time := "2024-05-01T10:00:00+00:00",
    end_time := "2024-05-01T09:00:00+00:00",
    exercises := [] }

/-! ## Rounding lemmas -/

/-- Banker's rounding lands within half a unit of its argument. -/
lemma abs_pyround_sub_le (q : ℚ) : |(pyround q : ℚ) - q| ≤ 1/2 := by
  have h1 : ((⌊q⌋ : ℤ) : ℚ) ≤ q := Int.floor_le q
  have h2 : q < ((⌊q⌋ : ℤ) : ℚ) + 1 := Int.lt_floor_add_one q
  unfold pyround
  split_ifs with ha hb hc
  · rw [abs_le]; constructor <;> linarith
  · push_cast
    rw [abs_le]; constructor <;> linarith
  · have hb' := not_lt.mp hb
    rw [abs_le]; constructor <;> linarith
  · push_cast
    rw [abs_le]; constructor <;> linarith

/-- Banker's rounding of a nonpositive rational is nonpositive. -/
lemma pyround_nonpos {q : ℚ} (h : q ≤ 0) : pyround q ≤ 0 := by
  have hf : ⌊q⌋ ≤ 0 := Int.floor_nonpos h
  have h1 : ((⌊q⌋ : ℤ) : ℚ) ≤ q := Int.floor_le q
  unfold pyround
  split_ifs with ha hb hc
  · exact hf
  · have hlt : ((⌊q⌋ : ℤ) : ℚ) < 0 := by linarith
    have : ⌊q⌋ < 0 := by exact_mod_cast hlt
    omega
  · exact hf
  · have hge : (1:ℚ)/2 ≤ q - ⌊q⌋ := not_lt.mp ha
    have hlt : ((⌊q⌋ : ℤ) : ℚ) < 0 := by linarith
    have : ⌊q⌋ < 0 := by exact_mod_cast hlt
    omega

/-- Banker's rounding computes the floor when the fractional part is below
one half (evaluation helper). -/
lemma pyround_eq_floor {q : ℚ} (h : q - (⌊q⌋ : ℚ) < 1/2) : pyround q = ⌊q⌋ := by
  unfold pyround
  rw [if_pos h]

/-- Truncation of an integer times 1000 (evaluation helper for epoch
milliseconds). -/
lemma pytrunc_cast_mul_1000 (z : ℤ) : pytrunc ((z : ℚ) * 1000) = z * 1000 := by
  have hz : ((z : ℚ) * 1000) = ((z * 1000 : ℤ) : ℚ) := by push_cast; ring
  rw [hz]
  unfold pytrunc
  split_ifs with h
  · exact Int.floor_intCast _
  · rw [← Int.cast_neg, Int.floor_intCast]
    ring

/-- Sum of a list of nonpositive rationals is nonpositive. -/
lemma list_sum_nonpos : ∀ {l : List ℚ}, (∀ x ∈ l, x ≤ 0) → l.sum ≤ 0 := by
  intro l h
  induction l with
  | nil => simp
  | cons a t ih =>
    simp only [List.sum_cons]
    have ha := h a (by simp)
    have ht := ih (fun x hx => h x (by simp [hx]))
    linarith

/-! ## Calorie estimator: claims C3 and C9 -/

/-- Doubling the duration doubles the pre-rounding calorie total. -/
lemma calcCaloriesTotal_double (samples : List ℤ) (D : ℚ) (Y : ℤ) :
    calcCaloriesTotal samples (2 * D) Y = 2 * calcCaloriesTotal samples D Y := by
  simp only [calcCaloriesTotal]
  rw [List.sum_map_mul_right, List.sum_map_mul_right]
  ring

/-- C3: the calorie estimator substitutes `[90]` for an empty sample list and
then returns the rounded sum, over all samples, of the clamped Keytel rate
`max(0, (−95.7735 + 0.634·HR + 0.404·50 + 0.394·80.5 + 0.271·(Y−1994))/4.184)`
times `sliceMinutes = (D / count) / 60`. -/
theorem calc_calories_keytel (samples : List ℤ) (D : ℚ) (Y : ℤ) :
    _calc_calories samples D Y =
      pyround (((if samples = [] then [(90 : ℤ)] else samples).map (fun hr =>
        max 0 ((-95.7735 + 0.634 * (hr : ℚ) + 0.404 * 50 + 0.394 * 80.5
            + 0.271 * ((Y : ℚ) - 1994)) / 4.184)
          * ((D / ((if samples = [] then [(90 : ℤ)] else samples).length : ℚ)) / 60))).sum) := by
  simp only [_calc_calories, calcCaloriesTotal, _DEFAULT_HR_BPM, _USER_VO2MAX,
    _USER_WEIGHT_KG, _USER_BIRTH_YEAR]
  apply congrArg pyround
  apply congrArg List.sum
  apply List.map_congr_left
  intro hr _
  push_cast
  ring_nf

/-- C9: for a fixed sample list and workout year, the calorie estimate at
duration `2·D` differs from twice the estimate at `D` by at most one
kilocalorie. -/
theorem calorie_duration_scaling (samples : List ℤ) (D : ℚ) (Y : ℤ)
    (_h : 0 ≤ D) :
    |_calc_calories samples (2 * D) Y - 2 * _calc_calories samples D Y| ≤ 1 := by
  have hdouble := calcCaloriesTotal_double samples D Y
  set T := calcCaloriesTotal samples D Y with hT
  have e2 : _calc_calories samples (2 * D) Y = pyround (2 * T) := by
    simp only [_calc_calories, hdouble]
  have e1 : _calc_calories samples D Y = pyround T := rfl
  rw [e1, e2]
  have b2 : |(pyround (2 * T) : ℚ) - 2 * T| ≤ 1/2 := abs_pyround_sub_le (2 * T)
  have b1 : |(pyround T : ℚ) - T| ≤ 1/2 := abs_pyround_sub_le T
  have h2 : |(2 * T) - 2 * (pyround T : ℚ)| = 2 * |T - (pyround T : ℚ)| := by
    rw [← mul_sub, abs_mul]
    norm_num
  have b1a : |T - (pyround T : ℚ)| ≤ 1/2 := by
    rw [abs_sub_comm]
    exact b1
  have bq : |(pyround (2 * T) : ℚ) - 2 * (pyround T : ℚ)| ≤ 3/2 := by
    have htri := abs_sub_le ((pyround (2 * T) : ℚ)) (2 * T) (2 * (pyround T : ℚ))
    rw [h2] at htri
    linarith
  have hcast : ((|pyround (2 * T) - 2 * pyround T| : ℤ) : ℚ)
      = |(pyround (2 * T) : ℚ) - 2 * (pyround T : ℚ)| := by
    push_cast
    rfl
  have hlt : (|pyround (2 * T) - 2 * pyround T| : ℤ) < 2 := by
    have : ((|pyround (2 * T) - 2 * pyround T| : ℤ) : ℚ) < 2 := by
      rw [hcast]
      linarith
    exact_mod_cast this
  omega

/-- Witness for C9 at samples `[100]`, `D = 60`, year 2024. -/
theorem calorie_duration_scaling_witness :
    |_calc_calories [100] (2 * 60) 2024 - 2 * _calc_calories [100] 60 2024| ≤ 1 :=
  calorie_duration_scaling [100] 60 2024 (by norm_num)

/-! ## Exercise lookup: claim C6 -/

/-- C6: the exercise lookup is total and pure: a key of the static table maps
to exactly its table entry (with the input echoed as display name), and any
other string, the empty string included, maps to the sentinel `(65534, 0)`
with the input echoed unchanged. -/
theorem lookup_exercise_total (name : String) :
    (∀ p : ℕ × ℕ, hevyToGarminGet name = some p →
      lookup_exercise name = (p.1, p.2, name)) ∧
    (hevyToGarminGet name = none →
      lookup_exercise name = (_UNKNOWN_CATEGORY, _UNKNOWN_SUBCATEGORY, name)) := by
  constructor
  · intro p hp
    simp [lookup_exercise, hp]
  · intro hp
    simp [lookup_exercise, hp]

/-- Witness for C6 at a known table key and at the empty string. -/
theorem lookup_exercise_total_witness :
    lookup_exercise "Running" = (32, 0, "Running")
      ∧ lookup_exercise "" = (65534, 0, "") := by
  constructor
  · exact (lookup_exercise_total "Running").1 (32, 0) (by decide)
  · exact (lookup_exercise_total "").2 (by decide)

/-! ## Heart-rate resolver: claim C1 -/

/-- C1: the heart-rate resolver implements the three-tier fallback policy:
measured samples with mean at least 65 bpm are returned unchanged tagged
`"daily"` (mean exactly 65 included); otherwise a non-empty history yields 30
copies of the rounded mean of its first `min(10, length)` entries tagged
`"avg_N"` with `N` the number of entries used; otherwise 30 copies of 90
tagged `"static"`. -/
theorem resolve_hr_samples_policy (rows : List (List HREntry))
    (start_time end_time : String) (recent : List ℚ) (measured : List ℤ)
    (hs : start_time ≠ "") (he : end_time ≠ "")
    (hm : get_daily_hr_for_window rows start_time end_time = some measured) :
    (measured ≠ [] → 65 ≤ (measured.sum : ℚ) / (measured.length : ℚ) →
      resolve_hr_samples rows start_time end_time recent = some (measured, "daily")) ∧
    ((measured = [] ∨ (measured.sum : ℚ) / (measured.length : ℚ) < 65) →
      recent ≠ [] →
      resolve_hr_samples rows start_time end_time recent =
        some (List.replicate 30
            (pyround ((recent.take 10).sum / ((recent.take 10).length : ℚ))),
          "avg_" ++ toString (min 10 recent.length))) ∧
    ((measured = [] ∨ (measured.sum : ℚ) / (measured.length : ℚ) < 65) →
      recent = [] →
      resolve_hr_samples rows start_time end_time recent =
        some (List.replicate 30 90, "static")) := by
  have hcond : start_time ≠ "" ∧ end_time ≠ "" := ⟨hs, he⟩
  have hfall_avg : recent ≠ [] →
      (if 1 ≤ recent.length then
        (List.replicate 30
            (pyround ((recent.take _FALLBACK_HR_WINDOW).sum
              / ((recent.take _FALLBACK_HR_WINDOW).length : ℚ))),
          "avg_" ++ toString (recent.take _FALLBACK_HR_WINDOW).length)
       else (List.replicate 30 _DEFAULT_HR_BPM, "static")) =
      (List.replicate 30
          (pyround ((recent.take 10).sum / ((recent.take 10).length : ℚ))),
        "avg_" ++ toString (min 10 recent.length)) := by
    intro hr
    have hlen : 1 ≤ recent.length := List.length_pos.mpr hr
    rw [if_pos hlen]
    simp [_FALLBACK_HR_WINDOW, List.length_take]
  have hfall_static : recent = [] →
      (if 1 ≤ recent.length then
        (List.replicate 30
            (pyround ((recent.take _FALLBACK_HR_WINDOW).sum
              / ((recent.take _FALLBACK_HR_WINDOW).length : ℚ))),
          "avg_" ++ toString (recent.take _FALLBACK_HR_WINDOW).length)
       else (List.replicate 30 _DEFAULT_HR_BPM, "static")) =
      (List.replicate 30 (90 : ℤ), "static") := by
    intro hr
    subst hr
    simp [_DEFAULT_HR_BPM]
  refine ⟨?_, ?_, ?_⟩
  · intro hne hge
    simp only [resolve_hr_samples, if_pos hcond, hm]
    rw [if_pos hne,
      if_pos (show _MIN_EXERCISE_HR ≤ _ by unfold _MIN_EXERCISE_HR; exact hge)]
  · intro hlow hr
    simp only [resolve_hr_samples, if_pos hcond, hm]
    by_cases hne : measured = []
    · subst hne
      rw [if_neg (by simp)]
      exact congrArg some (hfall_avg hr)
    · have hlow' : (measured.sum : ℚ) / (measured.length : ℚ) < 65 := by
        rcases hlow with hempty | hlow
        · exact absurd hempty hne
        · exact hlow
      rw [if_pos hne,
        if_neg (show ¬ _MIN_EXERCISE_HR ≤ _ by
          unfold _MIN_EXERCISE_HR; exact not_le.mpr hlow')]
      exact congrArg some (hfall_avg hr)
  · intro hlow hr
    simp only [resolve_hr_samples, if_pos hcond, hm]
    by_cases hne : measured = []
    · subst hne
      rw [if_neg (by simp)]
      exact congrArg some (hfall_static hr)
    · have hlow' : (measured.sum : ℚ) / (measured.length : ℚ) < 65 := by
        rcases hlow with hempty | hlow
        · exact absurd hempty hne
        · exact hlow
      rw [if_pos hne,
        if_neg (show ¬ _MIN_EXERCISE_HR ≤ _ by
          unfold _MIN_EXERCISE_HR; exact not_le.mpr hlow')]
      exact congrArg some (hfall_static hr)

/-- Evaluation helper: `get_daily_hr_for_window` on parsed windows reduces to
the pure filter over the rows. -/
lemma get_daily_hr_for_window_eval (rows : List (List HREntry))
    (start_utc end_utc : String) (ds de : PyDateTime)
    (hs : pyFromIso (pyReplaceZ start_utc.data) = some ds)
    (he : pyFromIso (pyReplaceZ end_utc.data) = some de) :
    get_daily_hr_for_window rows start_utc end_utc =
      some (rows.flatMap (fun row => row.filterMap (fun entry =>
        match entry with
        | (some t, some v) =>
          if ds.epochSeconds * 1000 ≤ t ∧ t ≤ de.epochSeconds * 1000
          then some v else none
        | _ => none))) := by
  simp only [get_daily_hr_for_window, hs, he, Option.bind_eq_bind,
    Option.some_bind, PyDateTime.timestampQ, pytrunc_cast_mul_1000]

/-- Witness for C1: a window with two in-range daily samples of mean 125
resolves to tier 1. -/
theorem resolve_hr_samples_policy_witness :
    resolve_hr_samples sampleRows "2024-01-01T00:00:00+00:00"
        "2024-01-01T01:00:00+00:00" [] = some ([120, 130], "daily") := by
  have hs : pyFromIso (pyReplaceZ ("2024-01-01T00:00:00+00:00".data)) =
      some ⟨2024, 1, 1, 0, 0, 0, some 0⟩ := by decide
  have he : pyFromIso (pyReplaceZ ("2024-01-01T01:00:00+00:00".data)) =
      some ⟨2024, 1, 1, 1, 0, 0, some 0⟩ := by decide
  have hm : get_daily_hr_for_window sampleRows "2024-01-01T00:00:00+00:00"
      "2024-01-01T01:00:00+00:00" = some [120, 130] := by
    rw [get_daily_hr_for_window_eval sampleRows _ _ _ _ hs he]
    decide
  exact (resolve_hr_samples_policy sampleRows _ _ [] [120, 130]
    (by decide) (by decide) hm).1 (by decide) (by norm_num)

/-! ## Heart-rate resolver failure semantics: claim C8 -/

/-- Counterexample to C8 as stated: with a malformed (non-empty) workout
window, `resolve_hr_samples` propagates the `ValueError` raised by
`datetime.fromisoformat` inside `get_daily_hr_for_window` (modelled as
`none`) instead of degrading to a fallback tier. -/
theorem resolve_hr_samples_raises_on_malformed :
    resolve_hr_samples [] "not-a-date" "not-a-date" [] = none := by
  decide

/-- C8 (amended): the resolver never raises provided each window timestamp,
when the window is present (both strings non-empty), is well-formed: absence
of data then always degrades to a coarser fallback tier. -/
theorem resolve_hr_samples_no_raise (rows : List (List HREntry))
    (start_time end_time : String) (recent : List ℚ)
    (h : start_time ≠ "" → end_time ≠ "" →
      (pyFromIso (pyReplaceZ start_time.data)).isSome
        ∧ (pyFromIso (pyReplaceZ end_time.data)).isSome) :
    (resolve_hr_samples rows start_time end_time recent).isSome := by
  by_cases hc : start_time ≠ "" ∧ end_time ≠ ""
  · obtain ⟨h1, h2⟩ := h hc.1 hc.2
    obtain ⟨ds, hds⟩ := Option.isSome_iff_exists.mp h1
    obtain ⟨de, hde⟩ := Option.isSome_iff_exists.mp h2
    rw [resolve_hr_samples, if_pos hc,
      get_daily_hr_for_window_eval rows _ _ _ _ hds hde]
    split_ifs <;> try simp
    all_goals split_ifs <;> simp
  · rw [resolve_hr_samples, if_neg hc]
    simp

/-- Witness for the amended C8 at a well-formed window with no matching
daily-monitoring data and no history (the `"static"` tier). -/
theorem resolve_hr_samples_no_raise_witness :
    (resolve_hr_samples [] "2024-01-01T00:00:00+00:00"
      "2024-01-01T01:00:00+00:00" []).isSome :=
  resolve_hr_samples_no_raise [] _ _ [] (fun _ _ => by decide)

/-! ## Scale factor: claim C4 -/

/-- C4: the synthesizer's scale factor is `clamp(d / idealTotal, 0.3, 2.0)`
when the ideal total is positive and `1.0` when it is zero; a one-set workout
at 100 times its ideal duration clamps to exactly `2.0`, and an absurdly
small duration clamps to exactly `0.3`. -/
theorem scale_factor_spec (exercises : List ExerciseEntry) (d : ℚ) :
    (0 < ideal_total exercises →
      scaleFor exercises d = max 0.3 (min 2.0 (d / ideal_total exercises))) ∧
    (ideal_total exercises = 0 → scaleFor exercises d = 1) ∧
    scaleFor oneSetExercises (100 * ideal_total oneSetExercises) = 2 ∧
    scaleFor oneSetExercises (1 / 100) = 0.3 := by
  have hI : ideal_total oneSetExercises = 40 := by
    simp [ideal_total, flattenSets, oneSetExercises, _WORKING_SET_DURATION]
    norm_num
  refine ⟨?_, ?_, ?_, ?_⟩
  · intro h
    simp only [scaleFor, if_pos h, _MIN_SCALE, _MAX_SCALE]
  · intro h
    simp only [scaleFor, h, lt_irrefl, if_false]
    norm_num
  · rw [scaleFor, hI, if_pos (by norm_num : (0:ℚ) < 40)]
    simp only [_MIN_SCALE, _MAX_SCALE]
    norm_num
  · rw [scaleFor, hI, if_pos (by norm_num : (0:ℚ) < 40)]
    simp only [_MIN_SCALE, _MAX_SCALE]
    norm_num

/-- Witness for C4 at the one-set workout and a mid-range duration (the
unclamped region, where the scale equals the ratio). -/
theorem scale_factor_spec_witness :
    scaleFor oneSetExercises 60 = max 0.3 (min 2.0 (60 / ideal_total oneSetExercises)) := by
  have hI : ideal_total oneSetExercises = 40 := by
    simp [ideal_total, flattenSets, oneSetExercises, _WORKING_SET_DURATION]
    norm_num
  exact (scale_factor_spec oneSetExercises 60).1 (by rw [hI]; norm_num)

/-! ## Flattening constants: claim C5 -/

/-- Inner step of relating the source flattening to its specification-side
restatement: one exercise's sets, at any starting index. -/
lemma flattenSpecSets_eq (num_exercises ex_idx num_sets : ℕ) :
    ∀ (l : List SetEntry) (j : ℕ),
      (List.enumFrom j l).map (fun q =>
        ({ ex_idx := ex_idx, set_data := q.2,
           set_dur := if (q.2.type.getD "normal") == "warmup"
             then _WARMUP_SET_DURATION else _WORKING_SET_DURATION,
           rest_dur := if q.1 = num_sets - 1 ∧ ex_idx = num_exercises - 1 then 0
             else if q.1 = num_sets - 1 then _REST_BETWEEN_EXERCISES
             else _REST_BETWEEN_SETS,
           is_warmup := (q.2.type.getD "normal") == "warmup" } : SetInfo))
        = flattenSpecSets num_exercises ex_idx num_sets j l := by
  intro l
  induction l with
  | nil => intro j; simp [flattenSpecSets]
  | cons s rest ih =>
    intro j
    rw [List.enumFrom_cons, List.map_cons, flattenSpecSets, ih (j + 1)]
    congr 1
    simp only [SetInfo.mk.injEq, _WARMUP_SET_DURATION, _WORKING_SET_DURATION,
      _REST_BETWEEN_EXERCISES, _REST_BETWEEN_SETS]
    norm_num

/-- Outer step of relating the source flattening to its specification-side
restatement: the whole exercise list, at any starting index. -/
lemma flattenSpecExs_eq (n : ℕ) :
    ∀ (l : List ExerciseEntry) (i : ℕ),
      (List.enumFrom i l).flatMap (fun p =>
        p.2.sets.enum.map (fun q =>
          ({ ex_idx := p.1, set_data := q.2,
             set_dur := if (q.2.type.getD "normal") == "warmup"
               then _WARMUP_SET_DURATION else _WORKING_SET_DURATION,
             rest_dur := if q.1 = p.2.sets.length - 1 ∧ p.1 = n - 1 then 0
               else if q.1 = p.2.sets.length - 1 then _REST_BETWEEN_EXERCISES
               else _REST_BETWEEN_SETS,
             is_warmup := (q.2.type.getD "normal") == "warmup" } : SetInfo)))
        = flattenSpecExs n i l := by
  intro l
  induction l with
  | nil => intro i; simp [flattenSpecExs]
  | cons ex rest ih =>
    intro i
    rw [List.enumFrom_cons, List.flatMap_cons, flattenSpecExs, ih (i + 1)]
    congr 1
    have h := flattenSpecSets_eq n i ex.sets.length ex.sets 0
    rw [← h]
    rfl

/-- The source flattening equals the specification-side restatement. -/
lemma flattenSets_eq_spec (exercises : List ExerciseEntry) :
    flattenSets exercises = flattenSpec exercises := by
  have h := flattenSpecExs_eq exercises.length exercises 0
  unfold flattenSets flattenSpec
  rw [← h]
  rfl

/-- Each flattened set's active duration is determined by its warmup flag. -/
lemma flattenSets_set_dur (exercises : List ExerciseEntry) :
    ∀ s ∈ flattenSets exercises,
      s.set_dur = if s.is_warmup then _WARMUP_SET_DURATION else _WORKING_SET_DURATION := by
  intro s hs
  simp only [flattenSets, List.mem_flatMap, List.mem_map] at hs
  obtain ⟨p, hp, q, hq, rfl⟩ := hs
  rfl

/-- C5: the source flattening step agrees with the specification-side
restatement (25 s warmup / 40 s normal active duration; 0 s, 120 s, 75 s
rest by position), and a warmup set is always assigned a strictly shorter
nominal active duration than a normal set. -/
theorem flatten_nominal_durations (exercises : List ExerciseEntry) :
    flattenSets exercises = flattenSpec exercises ∧
    (∀ si ∈ flattenSets exercises, ∀ sj ∈ flattenSets exercises,
      si.is_warmup = true → sj.is_warmup = false → si.set_dur < sj.set_dur) := by
  refine ⟨flattenSets_eq_spec exercises, ?_⟩
  intro si hsi sj hsj hwi hwj
  rw [flattenSets_set_dur exercises si hsi, flattenSets_set_dur exercises sj hsj,
    hwi, hwj]
  simp only [if_true, if_false, _WARMUP_SET_DURATION, _WORKING_SET_DURATION]
  norm_num

/-- Evaluation of the flattening on the warmup-then-normal workout body. -/
lemma flattenSets_warmupPair_eval :
    flattenSets warmupPairExercises = [
      { ex_idx := 0,
        set_data := { type := some "warmup", reps := some 10, weight_kg := some 40 },
        set_dur := _WARMUP_SET_DURATION, rest_dur := _REST_BETWEEN_SETS,
        is_warmup := true },
      { ex_idx := 0,
        set_data := { type := none, reps := some 8, weight_kg := some 60 },
        set_dur := _WORKING_SET_DURATION, rest_dur := 0,
        is_warmup := false }] := by
  simp [flattenSets, warmupPairExercises, List.enum, List.enumFrom_cons,
    List.enumFrom_nil]

/-- Witness for C5: in a warmup-then-normal workout the warmup entry's
nominal duration is strictly below the normal entry's. -/
theorem flatten_nominal_durations_witness :
    ({ ex_idx := 0,
       set_data := { type := some "warmup", reps := some 10, weight_kg := some 40 },
       set_dur := _WARMUP_SET_DURATION, rest_dur := _REST_BETWEEN_SETS,
       is_warmup := true } : SetInfo).set_dur
    < ({ ex_idx := 0,
         set_data := { type := none, reps := some 8, weight_kg := some 60 },
         set_dur := _WORKING_SET_DURATION, rest_dur := 0,
         is_warmup := false } : SetInfo).set_dur :=
  (flatten_nominal_durations warmupPairExercises).2
    _ (by rw [flattenSets_warmupPair_eval]; simp)
    _ (by rw [flattenSets_warmupPair_eval]; simp)
    rfl rfl

/-! ## Timeline ordering: claim C2 -/

/-- Transitivity of the timeline comparison. -/
lemma timelineLe_trans (a b c : TimelineEvent)
    (hab : timelineLe a b = true) (hbc : timelineLe b c = true) :
    timelineLe a c = true := by
  simp only [timelineLe, decide_eq_true_eq] at *
  rcases hab with h1 | ⟨h1, h2⟩ <;> rcases hbc with h3 | ⟨h3, h4⟩
  · exact Or.inl (lt_trans h1 h3)
  · exact Or.inl (h3 ▸ h1)
  · exact Or.inl (h1 ▸ h3)
  · exact Or.inr ⟨h1.trans h3, le_trans h2 h4⟩

/-- Totality of the timeline comparison. -/
lemma timelineLe_total (a b : TimelineEvent) :
    (timelineLe a b || timelineLe b a) = true := by
  simp only [timelineLe, Bool.or_eq_true, decide_eq_true_eq]
  rcases lt_trichotomy (sortKey a).1 (sortKey b).1 with h | h | h
  · exact Or.inl (Or.inl h)
  · rcases Nat.le_total (sortKey a).2 (sortKey b).2 with h2 | h2
    · exact Or.inl (Or.inr ⟨h, h2⟩)
    · exact Or.inr (Or.inr ⟨h.symm, h2⟩)
  · exact Or.inr (Or.inl h)

/-- C2: for every workout body, heart-rate sample list, workout start and
resolved duration, the merged timeline is non-decreasing in timestamp, and
at equal timestamps every heart-rate record precedes every set event. -/
theorem timeline_ordering (exercises : List ExerciseEntry) (hr_samples : List ℤ)
    (start_ms : ℤ) (duration_s : ℚ) :
    (buildTimeline exercises hr_samples start_ms duration_s).Pairwise
      (fun a b => a.1 ≤ b.1
        ∧ (a.1 = b.1 → b.2.1 = "record" → a.2.1 = "record")) := by
  unfold buildTimeline
  refine List.Pairwise.imp ?_
    (List.sorted_mergeSort timelineLe_trans timelineLe_total _)
  intro a b hab
  simp only [timelineLe, sortKey, decide_eq_true_eq] at hab
  constructor
  · rcases hab with h | ⟨h, _⟩
    · exact le_of_lt h
    · exact le_of_eq h
  · intro hEq hbrec
    rcases hab with h | ⟨_, hk⟩
    · exact absurd (hEq ▸ h) (lt_irrefl _)
    · rw [hbrec] at hk
      by_cases hrec : a.2.1 = "record"
      · exact hrec
      · exfalso
        have hbeq : (a.2.1 == "record") = false := beq_eq_false_iff_ne.mpr hrec
        rw [hbeq] at hk
        simp at hk

/-! ## Heart-rate sample placement: claim C7 -/

/-- Floor of 10000/3 (evaluation helper). -/
lemma floor_10000_div_3 : ⌊(10000 / 3 : ℚ)⌋ = 3333 := by
  apply Int.floor_eq_iff.mpr
  constructor <;> norm_num

/-- The rounded sample interval for duration 10 s and 4 samples is 3333 ms. -/
lemma hr_interval_10_4 : pyround ((10 : ℚ) * 1000 / (((4 : ℕ) : ℚ) - 1)) = 3333 := by
  have h : (10 : ℚ) * 1000 / (((4 : ℕ) : ℚ) - 1) = 10000 / 3 := by norm_num
  rw [h, pyround_eq_floor (by rw [floor_10000_div_3]; norm_num), floor_10000_div_3]

/-- Counterexample to C7 as stated: with duration 10 s and 4 samples the
source places samples at 0, 3333, 6666 and 9999 ms, so the i-th sample is
not at the exact offset `i·(D/(n−1))` (sample 1 would sit at 10000/3 ms)
and the last sample does not coincide with the workout end
(`end_ms − start_ms = round(10·1000) = 10000 ≠ 9999`). -/
theorem hr_sample_placement_cex :
    (hrEvents [100, 100, 100, 100] 0 10).map Prod.fst = [0, 3333, 6666, 9999]
      ∧ ((3333 : ℚ) ≠ 1 * (10 / ((4 : ℚ) - 1)) * 1000)
      ∧ (9999 : ℤ) ≠ pyround ((10 : ℚ) * 1000) := by
  refine ⟨?_, by norm_num, ?_⟩
  · have hint : pyround ((10000 : ℚ) / 3) = 3333 := by
      rw [pyround_eq_floor (by rw [floor_10000_div_3]; norm_num), floor_10000_div_3]
    simp only [hrEvents, List.enum, List.enumFrom_cons, List.enumFrom_nil]
    rw [if_neg (by simp)]
    norm_num [hint]
  · have h : ((10 : ℚ) * 1000) = ((10000 : ℤ) : ℚ) := by norm_num
    rw [h, pyround_eq_floor (by rw [Int.floor_intCast]; norm_num),
      Int.floor_intCast]
    decide

/-- C7 (amended): the i-th heart-rate sample is placed at offset
`i · round(D·1000/(n−1))` milliseconds from the workout start — the ideal
spacing `D/(n−1)` rounded once to whole milliseconds — and a single sample
is placed at offset 0; the last sample therefore coincides with the workout
end only up to the accumulated rounding error. -/
theorem hr_sample_placement (samples : List ℤ) (start_ms : ℤ) (d : ℚ) :
    (∀ v, samples = [v] →
      hrEvents samples start_ms d = [(start_ms, "record", FitMsg.record v)]) ∧
    (2 ≤ samples.length → ∀ (i : ℕ) (v : ℤ), samples[i]? = some v →
      (hrEvents samples start_ms d)[i]? =
        some (start_ms + (i : ℤ) * pyround (d * 1000 / ((samples.length : ℚ) - 1)),
          "record", FitMsg.record v)) := by
  constructor
  · intro v h
    subst h
    simp [hrEvents, List.enum, List.enumFrom_cons, List.enumFrom_nil]
  · intro h2 i v hv
    have hne : ¬ (samples = []) := by
      intro h
      rw [h] at h2
      simp at h2
    have hn1 : ¬ (samples.length = 1) := by omega
    have hgt : 1 < samples.length := by omega
    simp only [hrEvents, if_neg hne, if_neg hn1, if_pos hgt, List.getElem?_map,
      List.getElem?_enum, hv]
    rfl

/-- Witness for the amended C7: a single sample sits at the workout start,
and with two samples the second sits one rounded interval after the start. -/
theorem hr_sample_placement_witness :
    hrEvents [77] 5 99 = [(5, "record", FitMsg.record 77)]
      ∧ (hrEvents [100, 110] 0 1)[1]? =
        some (0 + (1 : ℤ) * pyround ((1 : ℚ) * 1000 / ((((2 : ℕ) : ℚ)) - 1)),
          "record", FitMsg.record 110) :=
  ⟨(hr_sample_placement [77] 5 99).1 77 rfl,
   (hr_sample_placement [100, 110] 0 1).2 (by decide) 1 110 (by decide)⟩

/-! ## Missing duration validation: claim C10 -/

/-- The pre-rounding calorie total is nonpositive for a nonpositive
duration: every clamped rate is nonnegative and every time slice is
nonpositive. -/
lemma calcCaloriesTotal_nonpos (samples : List ℤ) (d : ℚ) (Y : ℤ)
    (hd : d ≤ 0) : calcCaloriesTotal samples d Y ≤ 0 := by
  unfold calcCaloriesTotal
  apply list_sum_nonpos
  intro x hx
  simp only [List.mem_map] at hx
  obtain ⟨hr, _, rfl⟩ := hx
  have hlen : (0 : ℚ) < ((if samples = [] then [_DEFAULT_HR_BPM] else samples).length : ℚ) := by
    split_ifs with h
    · norm_num
    · have : samples ≠ [] := h
      have hpos : 0 < samples.length := List.length_pos.mpr this
      exact_mod_cast hpos
  have hinterval : (d / ((if samples = [] then [_DEFAULT_HR_BPM] else samples).length : ℚ)) / 60 ≤ 0 := by
    apply div_nonpos_of_nonpos_of_nonneg
    · exact div_nonpos_of_nonpos_of_nonneg hd (le_of_lt hlen)
    · norm_num
  exact mul_nonpos_of_nonneg_of_nonpos (le_max_left 0 _) hinterval

/-- C10: `generate_fit` performs no validation of `duration = end − start`:
when the end instant is strictly earlier than the start instant the call
still returns a summary, and its calorie value is ≤ 0 because every clamped
nonnegative per-minute rate is multiplied by a negative time slice. -/
theorem generate_fit_negative_duration (w : Workout) (hr : Option (List ℤ))
    (sdt edt : PyDateTime) (d : ℚ)
    (hs : parse_timestamp w.start_time = some sdt)
    (he : parse_timestamp w.end_time = some edt)
    (hd : pySub edt sdt = some d) (hneg : d < 0) :
    ∃ info, generate_fit w hr = some info ∧ info.calories ≤ 0 := by
  simp only [generate_fit, hs, he, hd, Option.bind_eq_bind, Option.some_bind]
  exact ⟨_, rfl, pyround_nonpos (calcCaloriesTotal_nonpos _ d _ (le_of_lt hneg))⟩

/-- Witness for C10: a workout whose end time parses one hour before its
start time yields a summary with nonpositive calories. -/
theorem generate_fit_negative_duration_witness :
    ∃ info, generate_fit negDurationWorkout none = some info
      ∧ info.calories ≤ 0 :=
  generate_fit_negative_duration negDurationWorkout none
    ⟨2024, 5, 1, 10, 0, 0, some 0⟩ ⟨2024, 5, 1, 9, 0, 0, some 0⟩ (-3600)
    (by decide) (by decide)
    (by
      simp only [pySub, Option.isSome_some, if_pos]
      have hz : (⟨2024, 5, 1, 9, 0, 0, some 0⟩ : PyDateTime).epochSeconds
          - (⟨2024, 5, 1, 10, 0, 0, some 0⟩ : PyDateTime).epochSeconds = -3600 := by
        decide
      rw [hz]
      norm_num)
    (by norm_num)

end Soma
